import Mathlib

/-!
Verification of the build-orchestration core of `cli-build-app`
(`src/main.ts`): a CLI command that drives a webpack compiler through
one-shot build, file-watch, and in-memory watch-and-serve modes.

The embedding models the TypeScript source shallowly:

* promises become an `Outcome` state (`pending`, `resolved`, `rejected e`)
  with first-settlement-wins `resolve`/`reject` operations;
* compiler callbacks become explicit event values threaded through pure
  functions;
* the webpack `Configuration` keeps only the fields the orchestration
  reads or mutates (`entry`, `plugins`, `output.path`, `watchOptions`);
* the express application becomes the list of middlewares attached to it,
  in attachment order.
-/

namespace CliBuildApp

/-- Opaque compile / listen errors (e.g. `Error` objects in the source). -/
abbrev CompileError := String

/-- Opaque webpack stats objects (already rendered via `stats.toJson()`). -/
abbrev Stats := String

/-- Opaque watch options (`config.watchOptions`). -/
abbrev WatchOptions := String

/-- Webpack plugins, distinguishing only the two the orchestrator appends. -/
inductive Plugin where
  | hotModuleReplacementPlugin
  | noEmitOnErrorsPlugin
  | other (name : String)
deriving DecidableEq, Repr

/-- The subset of `webpack.Configuration` read or written by `main.ts`:
`entry` (an object of named entry-point module lists, modelled as an
association list preserving key order), `plugins`, `output.path`
(`none` when `output` or `output.path` is absent) and `watchOptions`. -/
structure Configuration where
  entry : List (String × List String)
  plugins : List Plugin
  outputPath : Option String
  watchOptions : WatchOptions
deriving DecidableEq, Repr

/-- Parsed CLI arguments consumed by the command: `mode`, `watch`
(`none` when the flag is absent), `serve`, `port`. -/
structure Args where
  mode : Option String
  watch : Option String
  serve : Bool
  port : Nat
deriving DecidableEq, Repr

/-- JavaScript truthiness of the `watch` argument: absent and the empty
string are falsy, every other string is truthy. -/
def watchTruthy : Option String → Bool
  | none => false
  | some s => s ≠ ""

/-- The settlement state of a JS promise. -/
inductive Outcome where
  | pending
  | resolved
  | rejected (err : CompileError)
deriving DecidableEq, Repr

/-- Model of `reject(e)`: settles a pending promise, no-op on a settled one. -/
def Outcome.reject : Outcome → CompileError → Outcome
  | .pending, e => .rejected e
  | o, _ => o

/-- Model of `resolve()`: settles a pending promise, no-op on a settled one. -/
def Outcome.resolve : Outcome → Outcome
  | .pending => .resolved
  | o => o

/-- One invocation of the external `logger(stats, config, message?)`. -/
structure LogCall where
  stats : Stats
  config : Configuration
  message : Option String
deriving DecidableEq, Repr

/-- Model of `build(config)` (`main.ts` lines 35–50): runs a single compile; the
`compiler.run` callback receives `(err, stats)`. The callback rejects on
`err`, logs `(stats.toJson(), config)` when stats are present, then calls
`resolve()` (a no-op if `reject` already settled the promise). Returns the
promise outcome and the logger invocations. -/
def build (config : Configuration) (err : Option CompileError) (stats : Option Stats) :
    Outcome × List LogCall :=
  let o := Outcome.pending
  let o := match err with
    | some e => o.reject e
    | none => o
  let logs : List LogCall := match stats with
    | some s => [⟨s, config, none⟩]
    | none => []
  (o.resolve, logs)

/-- Status message passed to the logger by `fileWatch` (`main.ts` line 62). -/
def fileWatchMessage (args : Args) : String :=
  if args.serve then "Listening on port " ++ toString args.port else "watching..."

/-- One firing of a watch callback with its `(err, stats)` arguments. -/
structure WatchEvent where
  err : Option CompileError
  stats : Option Stats
deriving DecidableEq, Repr

/-- One firing of the `compiler.watch` callback inside `fileWatch`
(`main.ts` lines 57–66): reject on `err`, log `(stats, config,
runningMessage)` when stats are present, then `resolve()` — the
settlement operations are no-ops once the promise has settled, the
logging is not. -/
def fileWatchStep (config : Configuration) (args : Args)
    (st : Outcome × List LogCall) (ev : WatchEvent) : Outcome × List LogCall :=
  let o := match ev.err with
    | some e => st.fst.reject e
    | none => st.fst
  let logs := match ev.stats with
    | some s => st.snd ++ [⟨s, config, some (fileWatchMessage args)⟩]
    | none => st.snd
  (o.resolve, logs)

/-- Model of `fileWatch(config, args)` (`main.ts` lines 52–68) observed
over a finite sequence of watch-callback firings: the promise outcome and
the logger invocations accumulated across them. -/
def fileWatch (config : Configuration) (args : Args) (events : List WatchEvent) :
    Outcome × List LogCall :=
  events.foldl (fileWatchStep config args) (Outcome.pending, [])

/-- Status message of the memory-watch done handler (`main.ts` line 84),
with the trailing dots. -/
def memoryWatchMessage (args : Args) : String :=
  "Listening on port " ++ toString args.port ++ "..."

/-- The hot-reload client bootstrap reference `memoryWatch` prepends to
every entry (`main.ts` line 77), with the 20-second timeout interpolated. -/
def hotReloadClientRef : String :=
  "webpack-hot-middleware/client?timeout=" ++ toString (20 * 1000) ++ "&reload=true"

/-- Options handed to the `webpack-dev-middleware` factory
(`main.ts` lines 88–93). -/
structure DevMiddlewareOptions where
  logLevel : String
  noInfo : Bool
  publicPath : String
  watchOptions : WatchOptions
deriving DecidableEq, Repr

/-- A request-handling middleware attached to the express application:
`express.static`, `webpack-dev-middleware` or `webpack-hot-middleware`. -/
inductive Middleware where
  | staticFiles (dir : String)
  | webpackDev (opts : DevMiddlewareOptions)
  | hotReload (heartbeat : Nat)
deriving DecidableEq, Repr

/-- What `memoryWatch` leaves behind: the mutated configuration, the
middlewares attached to the application, and the returned promise. -/
structure MemoryWatchResult where
  config : Configuration
  middlewares : List Middleware
  outcome : Outcome
deriving DecidableEq, Repr

/-- Model of `memoryWatch(config, args, app)` (`main.ts` lines 70–100):
pushes the HMR and no-emit-on-errors plugins, unshifts the hot-reload
client reference onto every named entry, attaches the dev middleware and
the hot middleware to the application (whose already-attached middlewares
are `app`), and returns `Promise.resolve()`. -/
def memoryWatch (config : Configuration) (args : Args) (app : List Middleware) :
    MemoryWatchResult :=
  let timeout := 20 * 1000
  let plugins := config.plugins ++
    [Plugin.hotModuleReplacementPlugin, Plugin.noEmitOnErrorsPlugin]
  let entry := config.entry.map fun e =>
    (e.fst,
      ("webpack-hot-middleware/client?timeout=" ++ toString timeout ++ "&reload=true")
        :: e.snd)
  let config := { config with plugins := plugins, entry := entry }
  let middlewares := app ++
    [Middleware.webpackDev ⟨"silent", true, "/", config.watchOptions⟩,
     Middleware.hotReload (timeout / 2)]
  ⟨config, middlewares, Outcome.resolved⟩

/-- The done handler registered by `memoryWatch` (`main.ts` lines 83–85):
logs stats with the mutated configuration and the listening message. -/
def memoryWatchDoneLog (config : Configuration) (args : Args) (stats : Stats) : LogCall :=
  ⟨stats, config, some (memoryWatchMessage args)⟩

/-- Output directory served statically (`main.ts` line 106):
`config.output.path` when present and non-empty, else the process
working directory. -/
def outputDir (config : Configuration) (cwd : String) : String :=
  match config.outputPath with
  | some p => if p = "" then cwd else p
  | none => cwd

/-- Which branch of the first `.then` inside `serve` runs. -/
inductive ServeBranch where
  | memory
  | file
  | noWatch
deriving DecidableEq, Repr

/-- Branch selection of `serve` (`main.ts` lines 111–120): memory watch
when `args.watch === 'memory' && args.mode === 'dev'`, file watch when
`args.watch` is truthy, otherwise no watch at all. -/
def serveBranch (args : Args) : ServeBranch :=
  if args.watch = some "memory" ∧ args.mode = some "dev" then ServeBranch.memory
  else if watchTruthy args.watch then ServeBranch.file
  else ServeBranch.noWatch

/-- Outcome of the promise returned by the first `.then` of `serve`:
`memoryWatch` and the empty branch resolve immediately, the file-watch
branch settles with `fileWatch`'s promise. -/
def serveBranchOutcome (config : Configuration) (args : Args)
    (events : List WatchEvent) : Outcome :=
  match serveBranch args with
  | ServeBranch.memory => (memoryWatch config args []).outcome
  | ServeBranch.file => (fileWatch config args events).fst
  | ServeBranch.noWatch => Outcome.resolved

/-- The `app.listen` continuation (`main.ts` lines 121–131), chained after
the branch promise: a rejected branch skips the listen callback and
propagates its rejection, a pending branch keeps the chain pending, and
otherwise the bind callback rejects on a bind error and resolves on
success. -/
def listenStep (branch : Outcome) (listenErr : Option CompileError) : Outcome :=
  match branch with
  | Outcome.rejected e => Outcome.rejected e
  | Outcome.pending => Outcome.pending
  | Outcome.resolved =>
    match listenErr with
    | some e => Outcome.rejected e
    | none => Outcome.resolved

/-- What `serve` leaves behind: the (possibly mutated) configuration, the
middlewares attached to the application in order, the branch taken, the
memory-fallback warning, the file-watch logger calls, and the promise. -/
structure ServeResult where
  config : Configuration
  middlewares : List Middleware
  branch : ServeBranch
  warned : Bool
  logs : List LogCall
  outcome : Outcome
deriving DecidableEq, Repr

/-- Model of `serve(config, args)` (`main.ts` lines 102–132) observed over
the file-watch callback firings `events` and the listener bind result
`listenErr`: mounts the static handler unless `args.watch === 'memory'`,
runs the selected branch, then listens. -/
def serve (config : Configuration) (args : Args) (cwd : String)
    (events : List WatchEvent) (listenErr : Option CompileError) : ServeResult :=
  let app : List Middleware :=
    if args.watch ≠ some "memory" then [Middleware.staticFiles (outputDir config cwd)]
    else []
  match serveBranch args with
  | ServeBranch.memory =>
    let m := memoryWatch config args app
    ⟨m.config, m.middlewares, ServeBranch.memory, false, [],
      listenStep m.outcome listenErr⟩
  | ServeBranch.file =>
    let f := fileWatch config args events
    ⟨config, app, ServeBranch.file, args.watch == some "memory", f.snd,
      listenStep f.fst listenErr⟩
  | ServeBranch.noWatch =>
    ⟨config, app, ServeBranch.noWatch, false, [],
      listenStep Outcome.resolved listenErr⟩

/-- The three configuration factories the command imports
(`dev.config`, `test.config`, `dist.config`). -/
inductive Factory where
  | dev
  | test
  | dist
deriving DecidableEq, Repr

/-- The three execution paths of `command.run`; the file-watch path
records whether the memory-watch warning was printed first. -/
inductive RunPath where
  | servePath
  | fileWatchPath (warned : Bool)
  | buildPath
deriving DecidableEq, Repr

/-- What `command.run` decides (`main.ts` lines 164–188): which
configuration factory is invoked (`dev` when `args.mode === 'dev'`,
`test` when `'test'`, otherwise `dist`) and which execution path runs
(`serve` when `args.serve` is truthy, else `fileWatch` when `args.watch`
is truthy — warning first when `args.watch === 'memory'` — else `build`). -/
structure RunResult where
  factory : Factory
  path : RunPath
deriving DecidableEq, Repr

def run (args : Args) : RunResult :=
  let factory :=
    if args.mode = some "dev" then Factory.dev
    else if args.mode = some "test" then Factory.test
    else Factory.dist
  let path :=
    if args.serve then RunPath.servePath
    else if watchTruthy args.watch then
      RunPath.fileWatchPath (args.watch == some "memory")
    else RunPath.buildPath
  ⟨factory, path⟩

end CliBuildApp

namespace CliBuildApp

/-- C1: For every one-shot build invocation, if the compiler callback
reports an error the promise returned by `build` rejects with that error,
and if the callback reports stats with no error the promise resolves and
the logger is invoked exactly once with `(stats, config)` and no trailing
status message. -/
theorem build_rejects_on_error_resolves_and_logs_on_stats
    (config : Configuration) (e : CompileError) (s : Stats) :
    (∀ stats, (build config (some e) stats).fst = Outcome.rejected e) ∧
    (build config none (some s) = (Outcome.resolved, [⟨s, config, none⟩])) := by
  constructor
  · intro stats
    cases stats <;> rfl
  · rfl

/-- C2: The top-level run selects exactly one configuration factory
determined by `args.mode` — `dev` selects the dev factory, `test` the
test factory, and any other value (including unset) the dist factory. -/
theorem run_selects_factory_by_mode (args : Args) :
    ((run args).factory = Factory.dev ↔ args.mode = some "dev") ∧
    ((run args).factory = Factory.test ↔ args.mode = some "test") ∧
    ((run args).factory = Factory.dist ↔
      (args.mode ≠ some "dev" ∧ args.mode ≠ some "test")) := by
  unfold run
  by_cases hd : args.mode = some "dev" <;>
    by_cases ht : args.mode = some "test" <;>
    simp_all

/-- C3: `command.run` follows a strict priority chain over the parsed
arguments: a truthy `serve` takes the serve path; otherwise a truthy
`watch` takes the file-watch path (warning exactly when
`watch == 'memory'`); otherwise the one-shot build path runs. Exactly one
of the three paths executes. -/
theorem run_priority_chain (args : Args) :
    (args.serve = true → (run args).path = RunPath.servePath) ∧
    (args.serve = false → watchTruthy args.watch = true →
      (run args).path = RunPath.fileWatchPath (args.watch == some "memory")) ∧
    (args.serve = false → watchTruthy args.watch = false →
      (run args).path = RunPath.buildPath) := by
  unfold run
  refine ⟨fun hs => ?_, fun hs hw => ?_, fun hs hw => ?_⟩ <;> simp_all

/-- Witness for C3's theorem at concrete argument sets covering each
branch of the priority chain. -/
theorem run_priority_chain_witness :
    (run ⟨some "dev", some "memory", true, 9999⟩).path = RunPath.servePath ∧
    (run ⟨some "dist", some "memory", false, 9999⟩).path =
      RunPath.fileWatchPath true ∧
    (run ⟨none, none, false, 9999⟩).path = RunPath.buildPath :=
  ⟨(run_priority_chain ⟨some "dev", some "memory", true, 9999⟩).1 rfl,
   (run_priority_chain ⟨some "dist", some "memory", false, 9999⟩).2.1 rfl (by decide),
   (run_priority_chain ⟨none, none, false, 9999⟩).2.2 rfl rfl⟩

/-- C4: When `memoryWatch` runs, every named entry point gets the
hot-reload client bootstrap reference prepended with the original module
order preserved after it, and the plugin list grows by exactly 2 (HMR
plus no-emit-on-errors) appended after the existing plugins, replacing
none of them. -/
theorem memoryWatch_prepends_entry_and_appends_plugins
    (config : Configuration) (args : Args) (app : List Middleware) :
    ((memoryWatch config args app).config.entry =
      config.entry.map fun e => (e.fst, hotReloadClientRef :: e.snd)) ∧
    ((memoryWatch config args app).config.plugins =
      config.plugins ++
        [Plugin.hotModuleReplacementPlugin, Plugin.noEmitOnErrorsPlugin]) ∧
    ((memoryWatch config args app).config.plugins.length =
      config.plugins.length + 2) := by
  refine ⟨rfl, rfl, ?_⟩
  simp [memoryWatch]

/-- Helper: a settled promise is unchanged by a further watch callback. -/
theorem fileWatchStep_fst_settled (config : Configuration) (args : Args)
    (st : Outcome × List LogCall) (ev : WatchEvent)
    (h : st.fst ≠ Outcome.pending) :
    (fileWatchStep config args st ev).fst = st.fst := by
  obtain ⟨o, logs⟩ := st
  cases o <;> cases hev : ev.err <;>
    simp_all [fileWatchStep, Outcome.reject, Outcome.resolve]

/-- Helper: a settled promise is unchanged by any further sequence of
watch callbacks. -/
theorem fileWatch_foldl_settled (config : Configuration) (args : Args)
    (events : List WatchEvent) (st : Outcome × List LogCall)
    (h : st.fst ≠ Outcome.pending) :
    (events.foldl (fileWatchStep config args) st).fst = st.fst := by
  induction events generalizing st with
  | nil => rfl
  | cons ev evs ih =>
    rw [List.foldl_cons]
    rw [ih _ (by rw [fileWatchStep_fst_settled config args st ev h]; exact h)]
    exact fileWatchStep_fst_settled config args st ev h

/-- C6: The promise returned by `fileWatch` settles on the first watch
callback — rejected with the error the first callback reports, resolved
otherwise — and errors reported by later recompilation callbacks do not
change the settled outcome. -/
theorem fileWatch_settles_on_first_callback
    (config : Configuration) (args : Args) (e : WatchEvent)
    (rest : List WatchEvent) :
    (fileWatch config args (e :: rest)).fst =
      (match e.err with
       | some er => Outcome.rejected er
       | none => Outcome.resolved) := by
  have h1 : (fileWatchStep config args (Outcome.pending, []) e).fst =
      (match e.err with
       | some er => Outcome.rejected er
       | none => Outcome.resolved) := by
    cases hev : e.err <;>
      simp [fileWatchStep, hev, Outcome.reject, Outcome.resolve]
  unfold fileWatch
  rw [List.foldl_cons, fileWatch_foldl_settled, h1]
  rw [h1]
  cases e.err <;> simp

/-- C5: If `args.watch == 'memory'` but `args.mode != 'dev'`, the system
warns and falls back to file watch — in the serve path the file-watch
branch runs with the warning and the configuration is left unchanged
(entries and plugins included), and in the no-serve path `command.run`
takes the file-watch path with the warning. -/
theorem memory_watch_without_dev_falls_back
    (config : Configuration) (args : Args) (cwd : String)
    (events : List WatchEvent) (listenErr : Option CompileError)
    (hw : args.watch = some "memory") (hm : args.mode ≠ some "dev") :
    (serve config args cwd events listenErr).branch = ServeBranch.file ∧
    (serve config args cwd events listenErr).warned = true ∧
    (serve config args cwd events listenErr).config = config ∧
    (args.serve = false → (run args).path = RunPath.fileWatchPath true) := by
  have hb : serveBranch args = ServeBranch.file := by
    simp [serveBranch, hw, hm, watchTruthy]
  unfold serve
  rw [hb]
  refine ⟨rfl, ?_, rfl, ?_⟩
  · simp [hw]
  · intro hs
    simp [run, hs, watchTruthy, hw]

/-- Witness for C5's theorem: memory watch requested in dist mode. -/
theorem memory_watch_without_dev_falls_back_witness :
    (serve ⟨[("main", ["a.js"])], [], none, "w"⟩
        ⟨some "dist", some "memory", true, 9999⟩ "/cwd" [] none).branch =
      ServeBranch.file ∧
    (serve ⟨[("main", ["a.js"])], [], none, "w"⟩
        ⟨some "dist", some "memory", true, 9999⟩ "/cwd" [] none).warned = true ∧
    (serve ⟨[("main", ["a.js"])], [], none, "w"⟩
        ⟨some "dist", some "memory", true, 9999⟩ "/cwd" [] none).config =
      ⟨[("main", ["a.js"])], [], none, "w"⟩ ∧
    ((⟨some "dist", some "memory", true, 9999⟩ : Args).serve = false →
      (run ⟨some "dist", some "memory", true, 9999⟩).path =
        RunPath.fileWatchPath true) :=
  memory_watch_without_dev_falls_back _ _ _ _ _ rfl (by decide)

/-- Helper: the outcome of `serve` is the listen continuation applied to
the branch outcome. -/
theorem serve_outcome_eq (config : Configuration) (args : Args) (cwd : String)
    (events : List WatchEvent) (listenErr : Option CompileError) :
    (serve config args cwd events listenErr).outcome =
      listenStep (serveBranchOutcome config args events) listenErr := by
  unfold serve serveBranchOutcome
  cases serveBranch args <;> rfl

/-- C7: In the serve path, once the branch has resolved and the listener
bind callback fires, the promise returned by `serve` is settled: rejected
with the bind error when one is reported, resolved otherwise — never left
pending. -/
theorem serve_settles_on_bind_callback
    (config : Configuration) (args : Args) (cwd : String)
    (events : List WatchEvent) (listenErr : Option CompileError)
    (h : serveBranchOutcome config args events = Outcome.resolved) :
    (serve config args cwd events listenErr).outcome =
      (match listenErr with
       | some e => Outcome.rejected e
       | none => Outcome.resolved) := by
  rw [serve_outcome_eq, h]
  cases listenErr <;> rfl

/-- Witness for C7's theorem: a bind error on a plain serving session. -/
theorem serve_settles_on_bind_callback_witness :
    (serve ⟨[], [], none, "w"⟩ ⟨none, none, true, 9999⟩ "/cwd" []
        (some "EADDRINUSE")).outcome = Outcome.rejected "EADDRINUSE" :=
  serve_settles_on_bind_callback ⟨[], [], none, "w"⟩ ⟨none, none, true, 9999⟩
    "/cwd" [] (some "EADDRINUSE") (by decide)

/-- C8: `memoryWatch` uses the fixed 20-second client-reconnect timeout,
attaches exactly two middlewares after those already on the application —
first the in-memory dev middleware with silent log level, `noInfo`,
public path `/` and the configuration's watch options, then the hot-reload
middleware with a heartbeat of half the timeout — and returns an
already-resolved promise. -/
theorem memoryWatch_middlewares_and_resolves
    (config : Configuration) (args : Args) (app : List Middleware) :
    ((memoryWatch config args app).middlewares =
      app ++
        [Middleware.webpackDev ⟨"silent", true, "/", config.watchOptions⟩,
         Middleware.hotReload ((20 * 1000) / 2)]) ∧
    ((memoryWatch config args app).outcome = Outcome.resolved) :=
  ⟨rfl, rfl⟩

/-- Helper: a string never equals itself with three dots appended. -/
theorem string_ne_self_append_dots (s : String) : s ≠ s ++ "..." := by
  intro h
  have hlen := congrArg String.length h
  rw [String.length_append] at hlen
  have h3 : ("...").length = 3 := rfl
  omega

/-- C9: The logger status message is exactly `Listening on port {port}`
in the file-watch path when `args.serve` is set, exactly `watching...`
otherwise, and exactly `Listening on port {port}...` in the memory-watch
path — so the two serving strings differ verbatim. -/
theorem status_message_strings (args : Args) :
    (args.serve = true →
      fileWatchMessage args = "Listening on port " ++ toString args.port) ∧
    (args.serve = false → fileWatchMessage args = "watching...") ∧
    (memoryWatchMessage args =
      "Listening on port " ++ toString args.port ++ "...") ∧
    (args.serve = true → fileWatchMessage args ≠ memoryWatchMessage args) := by
  refine ⟨fun hs => ?_, fun hs => ?_, rfl, fun hs => ?_⟩
  · simp [fileWatchMessage, hs]
  · simp [fileWatchMessage, hs]
  · have h1 : fileWatchMessage args =
        "Listening on port " ++ toString args.port := by
      simp [fileWatchMessage, hs]
    rw [h1, memoryWatchMessage, String.append_assoc]
    exact string_ne_self_append_dots _

/-- Witness for C9's theorem at port 9999 with and without serving. -/
theorem status_message_strings_witness :
    fileWatchMessage ⟨none, none, true, 9999⟩ =
      "Listening on port " ++ toString 9999 ∧
    fileWatchMessage ⟨none, none, false, 9999⟩ = "watching..." ∧
    fileWatchMessage ⟨none, none, true, 9999⟩ ≠
      memoryWatchMessage ⟨none, none, true, 9999⟩ :=
  ⟨(status_message_strings ⟨none, none, true, 9999⟩).1 rfl,
   (status_message_strings ⟨none, none, false, 9999⟩).2.1 rfl,
   (status_message_strings ⟨none, none, true, 9999⟩).2.2.2 rfl⟩

/-- Helper: the middlewares `serve` attaches, in order: the static
handler unless watch is `memory`, then the two memory-watch middlewares
exactly when the memory branch runs. -/
theorem serve_middlewares_eq (config : Configuration) (args : Args)
    (cwd : String) (events : List WatchEvent)
    (listenErr : Option CompileError) :
    (serve config args cwd events listenErr).middlewares =
      (if args.watch ≠ some "memory" then
        [Middleware.staticFiles (outputDir config cwd)]
       else []) ++
      (if serveBranch args = ServeBranch.memory then
        [Middleware.webpackDev ⟨"silent", true, "/", config.watchOptions⟩,
         Middleware.hotReload ((20 * 1000) / 2)]
       else []) := by
  unfold serve
  cases hb : serveBranch args <;> simp [hb, memoryWatch]

/-- C10: In the serve path the static handler over the output directory
is mounted if and only if `args.watch != 'memory'`; consequently when
serve is requested with `watch == 'memory'` but `mode != 'dev'` — the
degraded fallback to file watch — the application ends up with no
middleware at all. -/
theorem serve_static_mount_iff (config : Configuration) (args : Args)
    (cwd : String) (events : List WatchEvent)
    (listenErr : Option CompileError) :
    (Middleware.staticFiles (outputDir config cwd) ∈
        (serve config args cwd events listenErr).middlewares ↔
      args.watch ≠ some "memory") ∧
    (args.watch = some "memory" → args.mode ≠ some "dev" →
      (serve config args cwd events listenErr).middlewares = []) := by
  rw [serve_middlewares_eq]
  by_cases hw : args.watch = some "memory"
  · by_cases hm : args.mode = some "dev"
    · have hb : serveBranch args = ServeBranch.memory := by
        simp [serveBranch, hw, hm]
      rw [hb]
      simp [hw, hm]
    · have hb : serveBranch args = ServeBranch.file := by
        simp [serveBranch, hw, hm, watchTruthy]
      rw [hb]
      simp [hw]
  · have hb : serveBranch args ≠ ServeBranch.memory := by
      unfold serveBranch
      rw [if_neg (by simp [hw])]
      split <;> simp
    rw [if_neg hb]
    simp [hw]

/-- Witness for C10's theorem: memory watch requested in dist mode while
serving leaves the application with no middleware. -/
theorem serve_static_mount_iff_witness :
    (serve ⟨[], [], some "/out", "w"⟩ ⟨some "dist", some "memory", true, 9999⟩
        "/cwd" [] none).middlewares = [] :=
  (serve_static_mount_iff ⟨[], [], some "/out", "w"⟩
      ⟨some "dist", some "memory", true, 9999⟩ "/cwd" [] none).2 rfl (by decide)

end CliBuildApp
